import Mathlib

/-!
Verification of `.github/scripts/fetch_and_push.py` (WeChatNews).

The script has three functions:
* `get_recent_stories` — scans feed entries in order, skips entries without a
  `published_parsed` timestamp, includes entries whose timestamp is at or after
  the 24-hour cutoff as Markdown links with the title truncated to 100
  characters plus an ellipsis, and breaks at the first entry whose timestamp is
  strictly before the cutoff.
* `send_to_wechat` — reads `SERVER_CHAN_SENDKEY` from the environment (missing
  key: returns False with no HTTP call), substitutes a fixed placeholder for an
  empty/whitespace-only message, issues one HTTP POST, and interprets the
  response: `raise_for_status` (raises exactly for statuses in [400, 600)),
  JSON-decodes the body (decode failure caught as `ValueError`), and finally
  tests `result_json.get("code") == 0` with Python equality.
* `main` — joins the fetched stories with newlines (empty string when none)
  and passes the message to `send_to_wechat`.

The embedding makes the ambient inputs explicit: the current time enters as an
integer `cutoff` (seconds, the instant 24 hours before "now"), the parsed feed
as a list of entries, the environment variable as an `Option String`, the
current date string as a parameter, and the network as a `PostOutcome` value
describing what the single `requests.post` call produced.  JSON response
bodies are modelled as `none` (body that is not valid JSON) or `some obj`
with `obj` a top-level JSON object given as an association list; JSON scalar
values cover null, booleans, integers and strings.  The Python comparison
`==` between a JSON value and the integer literal `0` is modelled by
`pyEqZero` (in Python, `False == 0` is `True` since `bool` is a subclass of
`int`).
-/

/-- A parsed feed entry: `entry.title`, `entry.link`, and the optional
`published_parsed` timestamp, modelled as seconds. -/
structure Entry where
  title : String
  link : String
  published : Option Int
  deriving Repr, DecidableEq

/-- Source line 45: the first 100 characters of the title followed by an
ellipsis when the length exceeds 100, the unchanged title otherwise. -/
def truncatedTitle (title : String) : String :=
  if title.length > 100 then title.take 100 ++ "..." else title

/-- Source line 46: the Markdown link line built from the truncated title and
the link. -/
def formatEntry (title link : String) : String :=
  "- [" ++ truncatedTitle title ++ "](" ++ link ++ ")"

/-- Source lines 30-49: the scan over `feed.entries`.  An entry without
`published_parsed` is skipped (`continue`); one with `entry_time >= cutoff`
is appended; the first one with `entry_time < cutoff` stops the loop
(`break`).  Since timestamps are totally ordered the `elif` is an `else`. -/
def getRecentStories : List Entry → Int → List String
  | [], _ => []
  | e :: rest, cutoff =>
    match e.published with
    | none => getRecentStories rest cutoff
    | some t =>
      if cutoff ≤ t then
        formatEntry e.title e.link :: getRecentStories rest cutoff
      else
        []

/-- The test of line 41, `entry_time >= twenty_four_hours_ago`, as a Boolean
predicate on an entry (false when the entry has no timestamp). -/
def isRecent (cutoff : Int) (e : Entry) : Bool :=
  match e.published with
  | some t => decide (cutoff ≤ t)
  | none => false

/-- The test of line 47, `entry_time < twenty_four_hours_ago`: the entry has a
timestamp and it is strictly before the cutoff. -/
def isStale (cutoff : Int) (e : Entry) : Bool :=
  match e.published with
  | some t => decide (t < cutoff)
  | none => false

/-- The timestamped entries of the feed appear newest-first: the sequence of
timestamps present in the feed is non-increasing. -/
def FeedSortedDesc (feed : List Entry) : Prop :=
  List.Pairwise (fun a b => b ≤ a) (feed.filterMap Entry.published)

instance : DecidablePred FeedSortedDesc := fun f =>
  inferInstanceAs (Decidable (List.Pairwise _ (f.filterMap Entry.published)))

/-- A scalar JSON value as produced by `response.json()`: null, a boolean, an
integer number, or a string.  (Non-integer numbers and nested containers do
not occur in the gateway contract the script reads.) -/
inductive JsonVal where
  | jnull : JsonVal
  | jbool : Bool → JsonVal
  | jint : Int → JsonVal
  | jstr : String → JsonVal
  deriving Repr, DecidableEq

/-- `dict.get(key)` on a decoded JSON object: the value of the first binding
of `key`, or `None` when absent. -/
def lookupField (obj : List (String × JsonVal)) (key : String) : Option JsonVal :=
  (obj.find? (fun p => p.1 == key)).map (fun p => p.2)

/-- The Python comparison `v == 0` for a JSON value `v` (line 107,
`result_json.get("code") == 0`).  `bool` is a subclass of `int` in Python, so
`False == 0` evaluates to `True`; null and strings never equal `0`. -/
def pyEqZero : JsonVal → Bool
  | .jint n => n == 0
  | .jbool b => !b
  | .jnull => false
  | .jstr _ => false

/-- What the single `requests.post(url, data=data, timeout=30)` call produced:
a timeout (`requests.exceptions.Timeout`), another request exception such as a
connection error, or a response with an HTTP status code and a body.  The
body is `none` when it is not valid JSON (so `response.json()` raises
`ValueError`) and `some obj` when it decodes to the JSON object `obj`. -/
inductive PostOutcome where
  | timeout : PostOutcome
  | connError : PostOutcome
  | response : Nat → Option (List (String × JsonVal)) → PostOutcome
  deriving Repr, DecidableEq

/-- `response.raise_for_status()` raises `requests.exceptions.HTTPError`
exactly for client-error and server-error statuses, `400 <= status < 600`. -/
def raiseForStatus (status : Nat) : Bool :=
  decide (400 ≤ status ∧ status < 600)

/-- The form-encoded payload of the POST: the dict of lines 80-83 with the
fields `title` and `desp`, together with the gateway URL of line 76. -/
structure PostReq where
  url : String
  title : String
  desp : String
  deriving Repr, DecidableEq

/-- The observable result of `send_to_wechat`: the returned Boolean and the
list of HTTP POST requests issued during the call. -/
structure SendRes where
  ok : Bool
  posts : List PostReq
  deriving Repr, DecidableEq

/-- Line 73: the fixed localized fallback message. -/
def placeholderMsg : String := "今日暂无更新的科技资讯。"

/-- The Python `message.strip()` of line 72: the string with leading and
trailing whitespace removed (whitespace restricted to the ASCII whitespace
characters of `Char.isWhitespace`). -/
def pyStrip (s : String) : String :=
  String.mk (((s.data.dropWhile Char.isWhitespace).reverse.dropWhile
    Char.isWhitespace).reverse)

/-- Source lines 55-122, `send_to_wechat(message)`.  `sendkey` is the value of
`os.getenv("SERVER_CHAN_SENDKEY")`; `dateStr` the formatted current date of
line 77; `outcome` what the POST produced.
With no key the function returns `False` before any network code runs.
Otherwise an empty or whitespace-only message (`not message.strip()`) is
replaced by the placeholder, one POST is issued, and the result is read off
the outcome in source order: `raise_for_status`, then `response.json()`, then
`result_json.get("code") == 0`; every raised `Timeout`, `RequestException`
and `ValueError` is caught and turned into `False`. -/
def sendToWeChat (sendkey : Option String) (message : String)
    (outcome : PostOutcome) (dateStr : String) : SendRes :=
  match sendkey with
  | none => { ok := false, posts := [] }
  | some key =>
    let message := if pyStrip message == "" then placeholderMsg else message
    let url := "https://sctapi.ftqq.com/" ++ key ++ ".send"
    let title := "【每日科技资讯】" ++ dateStr
    let req : PostReq := { url := url, title := title, desp := message }
    let ok :=
      match outcome with
      | .timeout => false
      | .connError => false
      | .response status body =>
        if raiseForStatus status then false
        else
          match body with
          | none => false
          | some obj =>
            match lookupField obj "code" with
            | some v => pyEqZero v
            | none => false
    { ok := ok, posts := [req] }

/-- Source lines 125-146, `main()`: fetch the stories, join them with
newlines (`"\n".join(recent_stories)` when the list is non-empty, `""`
otherwise), and send the message. -/
def buildMessage (stories : List String) : String :=
  if stories.isEmpty then "" else String.intercalate "\n" stories

/-- The whole pipeline of `main()`, with the ambient inputs explicit. -/
def mainRun (feed : List Entry) (cutoff : Int) (sendkey : Option String)
    (outcome : PostOutcome) (dateStr : String) : SendRes :=
  sendToWeChat sendkey (buildMessage (getRecentStories feed cutoff)) outcome dateStr

/-! ## Helper lemmas -/

theorem length_take_title (t : String) (h : 100 < t.length) :
    (t.take 100).length = 100 := by
  rw [String.take_eq, String.length_mk, List.length_take]
  have hd : t.data.length = t.length := rfl
  omega

theorem length_ellipsis : ("..." : String).length = 3 := rfl

theorem length_truncatedTitle_le (t : String) : (truncatedTitle t).length ≤ 103 := by
  unfold truncatedTitle
  by_cases h : 100 < t.length
  · rw [if_pos h, String.length_append, length_take_title t h, length_ellipsis]
  · rw [if_neg h]
    omega

/-! ## Claims -/

/-- Claim C3: for every included entry, the title is truncated to its first
100 characters followed by an ellipsis exactly when its length exceeds 100
characters, and passed through unchanged otherwise (so a title of length at
most 100, in particular of length 90 or exactly 100, is unchanged, and a
longer one becomes its 100-character prefix plus the 3-character ellipsis,
103 characters in total). -/
theorem c3_title_truncation (t : String) :
    (t.length ≤ 100 → truncatedTitle t = t) ∧
    (100 < t.length →
      truncatedTitle t = t.take 100 ++ "..." ∧ (truncatedTitle t).length = 103) := by
  constructor
  · intro h
    unfold truncatedTitle
    rw [if_neg (by omega)]
  · intro h
    unfold truncatedTitle
    rw [if_pos (by omega)]
    refine ⟨rfl, ?_⟩
    rw [String.length_append, length_take_title t h, length_ellipsis]

/-- Witness for C3 at concrete titles: a title of 150 repeated characters is
cut to its first 100 characters plus the ellipsis, and titles of length 90
and of length exactly 100 pass through unchanged. -/
theorem c3_title_truncation_witness :
    truncatedTitle (String.mk (List.replicate 150 'a')) =
      (String.mk (List.replicate 150 'a')).take 100 ++ "..." ∧
    truncatedTitle (String.mk (List.replicate 90 'b')) =
      String.mk (List.replicate 90 'b') ∧
    truncatedTitle (String.mk (List.replicate 100 'c')) =
      String.mk (List.replicate 100 'c') := by
  have h150 : (String.mk (List.replicate 150 'a')).length = 150 := by
    rw [String.length_mk, List.length_replicate]
  have h90 : (String.mk (List.replicate 90 'b')).length = 90 := by
    rw [String.length_mk, List.length_replicate]
  have h100 : (String.mk (List.replicate 100 'c')).length = 100 := by
    rw [String.length_mk, List.length_replicate]
  refine ⟨?_, ?_, ?_⟩
  · exact ((c3_title_truncation _).2 (by omega)).1
  · exact (c3_title_truncation _).1 (by omega)
  · exact (c3_title_truncation _).1 (by omega)

/-- Claim C5: with the credential environment variable absent, send returns
False and issues zero HTTP POSTs, for every message, date and network
behavior. -/
theorem c5_missing_key_no_post (message dateStr : String) (outcome : PostOutcome) :
    sendToWeChat none message outcome dateStr = { ok := false, posts := [] } := rfl

/-- Claim C8: a feed entry with no published timestamp is skipped — the scan
result on the feed starting with it equals the result on the rest of the
feed, so the entry is never included and later entries are still scanned. -/
theorem c8_missing_timestamp_skipped (e : Entry) (rest : List Entry) (cutoff : Int)
    (h : e.published = none) :
    getRecentStories (e :: rest) cutoff = getRecentStories rest cutoff := by
  cases e with
  | mk ti li pub =>
    cases pub with
    | none => rfl
    | some t => exact Option.noConfusion h

/-- Witness for C8: a concrete timestampless entry at the head of a feed is
dropped while the recent entry behind it is still formatted. -/
theorem c8_missing_timestamp_skipped_witness :
    getRecentStories [⟨"N", "ln", none⟩, ⟨"A", "la", some 150⟩] 100 =
      getRecentStories [⟨"A", "la", some 150⟩] 100 ∧
    getRecentStories [⟨"A", "la", some 150⟩] 100 = ["- [A](la)"] :=
  ⟨c8_missing_timestamp_skipped ⟨"N", "ln", none⟩ [⟨"A", "la", some 150⟩] 100 rfl,
   by decide⟩

/-- Claim C1: the scan stops at the first entry (in feed order) whose
timestamp is strictly before the cutoff.  If every entry before `e` is not
stale (skipped or included) and `e` is stale, the result on
`pre ++ e :: post` equals the result on `pre` alone, for every tail `post` —
so no entry after `e` is inspected or included, however recent it is. -/
theorem c1_scan_stops_at_first_stale (pre : List Entry) (e : Entry)
    (post : List Entry) (cutoff : Int)
    (hpre : ∀ x ∈ pre, isStale cutoff x = false)
    (he : isStale cutoff e = true) :
    getRecentStories (pre ++ e :: post) cutoff = getRecentStories pre cutoff := by
  induction pre with
  | nil =>
    rw [List.nil_append]
    cases e with
    | mk ti li pub =>
      cases pub with
      | none => exact absurd he (by simp [isStale])
      | some t =>
        have ht : t < cutoff := by
          have := he
          simp [isStale] at this
          exact this
        show (if cutoff ≤ t then _ else []) = []
        rw [if_neg (by omega)]
  | cons x pre ih =>
    have hx : isStale cutoff x = false := hpre x (List.mem_cons_self x pre)
    have hpre2 : ∀ y ∈ pre, isStale cutoff y = false := fun y hy =>
      hpre y (List.mem_cons_of_mem x hy)
    cases x with
    | mk ti li pub =>
      cases pub with
      | none => exact ih hpre2
      | some t =>
        have ht : cutoff ≤ t := by
          simp [isStale] at hx
          omega
        show (if cutoff ≤ t then _ else []) = (if cutoff ≤ t then _ else [])
        rw [if_pos ht, if_pos ht]
        exact congrArg _ (ih hpre2)

/-- Witness for C1: with cutoff 100, the feed holds a recent entry, then a
stale one, then another recent one; the result keeps only the first entry —
the recent entry placed after the stale one is never reached. -/
theorem c1_scan_stops_at_first_stale_witness :
    (∀ x ∈ [(⟨"P", "lp", some 200⟩ : Entry)], isStale 100 x = false) ∧
    isStale 100 (⟨"S", "ls", some 50⟩ : Entry) = true ∧
    getRecentStories
        ([⟨"P", "lp", some 200⟩] ++ ⟨"S", "ls", some 50⟩ :: [⟨"R", "lr", some 500⟩]) 100 =
      getRecentStories [⟨"P", "lp", some 200⟩] 100 :=
  ⟨by decide, by decide,
   c1_scan_stops_at_first_stale [⟨"P", "lp", some 200⟩] ⟨"S", "ls", some 50⟩
     [⟨"R", "lr", some 500⟩] 100 (by decide) (by decide)⟩

/-- Counterexample to claim C2 as stated: inclusion is not equivalent to
recency on arbitrary feeds.  With cutoff 100 the entry `A` carries timestamp
150, at or after the cutoff, yet the scan result is empty because the stale
entry `B` placed before it breaks the loop — so `A` is not included. -/
theorem c2_recency_counterexample :
    (Entry.mk "A" "la" (some 150)).published = some 150 ∧
    (100 : Int) ≤ 150 ∧
    getRecentStories [⟨"B", "lb", some 50⟩, ⟨"A", "la", some 150⟩] 100 = [] ∧
    formatEntry "A" "la" ∉
      getRecentStories [⟨"B", "lb", some 50⟩, ⟨"A", "la", some 150⟩] 100 := by
  decide

/-- Claim C2 (amended): on a feed whose timestamped entries appear in
non-increasing timestamp order — the newest-first delivery the source code
assumes — an entry with a published timestamp is included exactly when its
timestamp is at or after the cutoff: the scan result equals the in-order
formatting of the entries whose timestamp is at or after the cutoff, so a
timestamp equal to the cutoff is included and one strictly before it is
excluded.  (Without that order the equivalence fails: see the
counterexample, where a recent entry sits behind a stale one.) -/
theorem c2_recency_on_sorted_feed (feed : List Entry) (cutoff : Int)
    (hs : FeedSortedDesc feed) :
    getRecentStories feed cutoff =
      (feed.filter (fun e => isRecent cutoff e)).map
        (fun e => formatEntry e.title e.link) := by
  induction feed with
  | nil => rfl
  | cons e rest ih =>
    cases e with
    | mk ti li pub =>
      cases pub with
      | none =>
        have hs2 : FeedSortedDesc rest := by
          unfold FeedSortedDesc at hs ⊢
          rwa [List.filterMap_cons_none (by rfl)] at hs
        have hf : isRecent cutoff ⟨ti, li, none⟩ = false := rfl
        rw [List.filter_cons_of_neg (by rw [hf]; exact Bool.false_ne_true)]
        exact ih hs2
      | some t =>
        have hcons : (⟨ti, li, some t⟩ :: rest : List Entry).filterMap Entry.published =
            t :: rest.filterMap Entry.published :=
          List.filterMap_cons_some (by rfl)
        unfold FeedSortedDesc at hs
        rw [hcons] at hs
        obtain ⟨hall, hs2⟩ := List.pairwise_cons.mp hs
        by_cases hc : cutoff ≤ t
        · have hr : isRecent cutoff ⟨ti, li, some t⟩ = true := by
            simp [isRecent, hc]
          rw [List.filter_cons_of_pos (by rw [hr])]
          show (if cutoff ≤ t then _ else []) = _
          rw [if_pos hc, List.map_cons]
          exact congrArg _ (ih hs2)
        · have hrest : rest.filter (fun x => isRecent cutoff x) = [] := by
            rw [List.filter_eq_nil_iff]
            intro x hx
            cases hq : x.published with
            | none => simp [isRecent, hq]
            | some u =>
              have hu : u ∈ rest.filterMap Entry.published :=
                List.mem_filterMap.mpr ⟨x, hx, hq⟩
              have hut : u ≤ t := hall u hu
              simp [isRecent, hq]
              omega
          have hr : isRecent cutoff ⟨ti, li, some t⟩ = false := by
            simp [isRecent]
            omega
          rw [List.filter_cons_of_neg (by rw [hr]; exact Bool.false_ne_true), hrest]
          show (if cutoff ≤ t then _ else []) = _
          rw [if_neg hc]
          rfl

/-- Witness for C2 (amended) at a concrete newest-first feed straddling the
cutoff 100: the entry stamped exactly at the cutoff is included, the one
stamped just before it is excluded. -/
theorem c2_recency_on_sorted_feed_witness :
    FeedSortedDesc [⟨"A", "la", some 100⟩, ⟨"B", "lb", some 99⟩] ∧
    getRecentStories [⟨"A", "la", some 100⟩, ⟨"B", "lb", some 99⟩] 100 =
      (([⟨"A", "la", some 100⟩, ⟨"B", "lb", some 99⟩] : List Entry).filter
          (fun e => isRecent 100 e)).map (fun e => formatEntry e.title e.link) ∧
    getRecentStories [⟨"A", "la", some 100⟩, ⟨"B", "lb", some 99⟩] 100 = ["- [A](la)"] :=
  ⟨by decide,
   c2_recency_on_sorted_feed [⟨"A", "la", some 100⟩, ⟨"B", "lb", some 99⟩] 100 (by decide),
   by decide⟩

/-- Claim C9: when all entries of the feed carry timestamps inside the
window, the scan returns exactly one formatted line per entry, in feed
order, and each line is the Markdown link of the entry with a title portion
of at most 103 characters. -/
theorem c9_all_recent_all_formatted (feed : List Entry) (cutoff : Int)
    (h : ∀ e ∈ feed, isRecent cutoff e = true) :
    getRecentStories feed cutoff = feed.map (fun e => formatEntry e.title e.link) ∧
    (getRecentStories feed cutoff).length = feed.length ∧
    ∀ e ∈ feed, (truncatedTitle e.title).length ≤ 103 := by
  have hmap : getRecentStories feed cutoff = feed.map (fun e => formatEntry e.title e.link) := by
    induction feed with
    | nil => rfl
    | cons e rest ih =>
      have he : isRecent cutoff e = true := h e (List.mem_cons_self e rest)
      have h2 : ∀ x ∈ rest, isRecent cutoff x = true := fun x hx =>
        h x (List.mem_cons_of_mem e hx)
      cases e with
      | mk ti li pub =>
        cases pub with
        | none => exact absurd he (by simp [isRecent])
        | some t =>
          have hc : cutoff ≤ t := by
            simp [isRecent] at he
            omega
          show (if cutoff ≤ t then _ else []) = _
          rw [if_pos hc, List.map_cons]
          exact congrArg _ (ih h2)
  refine ⟨hmap, ?_, fun e _ => length_truncatedTitle_le e.title⟩
  rw [hmap, List.length_map]

/-- Witness for C9: a concrete two-entry feed fully inside the window yields
exactly the two Markdown lines, in feed order. -/
theorem c9_all_recent_all_formatted_witness :
    (∀ e ∈ [(⟨"A", "la", some 200⟩ : Entry), ⟨"B", "lb", some 150⟩], isRecent 100 e = true) ∧
    getRecentStories [⟨"A", "la", some 200⟩, ⟨"B", "lb", some 150⟩] 100 =
      ([(⟨"A", "la", some 200⟩ : Entry), ⟨"B", "lb", some 150⟩].map
        (fun e => formatEntry e.title e.link)) ∧
    (getRecentStories [⟨"A", "la", some 200⟩, ⟨"B", "lb", some 150⟩] 100).length = 2 :=
  ⟨by decide,
   (c9_all_recent_all_formatted [⟨"A", "la", some 200⟩, ⟨"B", "lb", some 150⟩] 100
     (by decide)).1,
   by decide⟩

/-- Reduction helper: the Boolean returned by `sendToWeChat` with a key, for
a response outcome. -/
theorem sendOk_response (key message dateStr : String) (status : Nat)
    (body : Option (List (String × JsonVal))) :
    (sendToWeChat (some key) message (.response status body) dateStr).ok =
      (if raiseForStatus status then false
       else
         match body with
         | none => false
         | some obj =>
           match lookupField obj "code" with
           | some v => pyEqZero v
           | none => false) := rfl

/-- Reduction helper: the single POST issued by `sendToWeChat` with a key. -/
theorem sendPosts_some (key message dateStr : String) (outcome : PostOutcome) :
    (sendToWeChat (some key) message outcome dateStr).posts =
      [{ url := "https://sctapi.ftqq.com/" ++ key ++ ".send",
         title := "【每日科技资讯】" ++ dateStr,
         desp := if pyStrip message == "" then placeholderMsg else message }] := rfl

/-- Counterexample to claim C4 as stated: after a successful HTTP exchange, a
JSON body whose code field holds the boolean false — a value other than 0 —
still makes send return True, because the Python comparison used on line 107
equates False with 0. -/
theorem c4_bool_code_counterexample :
    lookupField [("code", JsonVal.jbool false)] "code" = some (JsonVal.jbool false) ∧
    JsonVal.jbool false ≠ JsonVal.jint 0 ∧
    (sendToWeChat (some "k") "hello"
      (.response 200 (some [("code", JsonVal.jbool false)])) "2026-10-12").ok = true := by
  decide

/-- Claim C4 (amended): after a successful HTTP exchange (status 200), send
returns True exactly when the response body is valid JSON whose code field
holds a value that the Python comparison of line 107 equates with 0 — the
integer 0 or the boolean false.  Any other value, a missing field, and a
body that is not valid JSON all yield False. -/
theorem c4_success_iff_code_py_zero (key message dateStr : String)
    (body : Option (List (String × JsonVal))) :
    (sendToWeChat (some key) message (.response 200 body) dateStr).ok = true ↔
      ∃ obj v, body = some obj ∧ lookupField obj "code" = some v ∧
        pyEqZero v = true := by
  rw [sendOk_response]
  have h200 : raiseForStatus 200 = false := rfl
  rw [h200]
  cases body with
  | none => simp
  | some obj =>
    cases hv : lookupField obj "code" with
    | none => simp [hv]
    | some v => simp [hv]

/-- Counterexample to claim C7 as stated: a non-2xx HTTP status does not
always cause a False return.  `raise_for_status` raises only for statuses in
[400, 600), so a 300 response with a success body makes send return True. -/
theorem c7_noncaught_3xx_counterexample :
    ¬ (200 ≤ 300 ∧ 300 ≤ 299) ∧
    (sendToWeChat (some "k") "m"
      (.response 300 (some [("code", JsonVal.jint 0)])) "2026-10-12").ok = true := by
  decide

/-- Claim C7 (amended): send issues at most one HTTP POST per call (never a
retry), and a timeout, a connection error, or an HTTP status in [400, 600) —
the statuses `raise_for_status` raises for — is caught and yields False
rather than a propagated exception.  A status outside [400, 600) that is not
2xx is not treated as a failure by status; the result then depends on the
response body. -/
theorem c7_single_post_failures_caught (sendkey : Option String)
    (message dateStr : String) (outcome : PostOutcome) :
    (sendToWeChat sendkey message outcome dateStr).posts.length ≤ 1 ∧
    ((outcome = .timeout ∨ outcome = .connError) →
      (sendToWeChat sendkey message outcome dateStr).ok = false) ∧
    (∀ status body, outcome = .response status body → 400 ≤ status →
      status < 600 → (sendToWeChat sendkey message outcome dateStr).ok = false) := by
  cases sendkey with
  | none =>
    exact ⟨Nat.zero_le 1, fun _ => rfl, fun _ _ _ _ _ => rfl⟩
  | some key =>
    refine ⟨?_, ?_, ?_⟩
    · rw [sendPosts_some]
      exact Nat.le_refl 1
    · rintro (rfl | rfl) <;> rfl
    · rintro status body rfl h4 h6
      rw [sendOk_response]
      have hrs : raiseForStatus status = true := by
        unfold raiseForStatus
        exact decide_eq_true ⟨h4, h6⟩
      rw [hrs]
      rfl

/-- Witness for C7 (amended): a concrete 404 response is caught and reported
as failure, with at most one POST issued. -/
theorem c7_single_post_failures_caught_witness :
    (400 ≤ 404 ∧ 404 < 600) ∧
    (sendToWeChat (some "k") "m" (.response 404 none) "d").ok = false ∧
    (sendToWeChat (some "k") "m" (.response 404 none) "d").posts.length ≤ 1 :=
  ⟨by decide,
   (c7_single_post_failures_caught (some "k") "m" "d" (.response 404 none)).2.2
     404 none rfl (by decide) (by decide),
   (c7_single_post_failures_caught (some "k") "m" "d" (.response 404 none)).1⟩

/-- Counterexample to claim C10 as stated: a valid JSON body whose code field
holds a non-integer value can still make send return True — the boolean
false is such a value, since the Python comparison of line 107 equates False
with 0. -/
theorem c10_bool_code_counterexample :
    lookupField [("x", JsonVal.jint 1), ("code", JsonVal.jbool false)] "code" =
      some (JsonVal.jbool false) ∧
    (sendToWeChat (some "k2") "m2"
      (.response 200 (some [("x", JsonVal.jint 1), ("code", JsonVal.jbool false)]))
      "2026-10-11").ok = true := by
  decide

/-- Claim C10 (amended): after a successful HTTP exchange with a valid JSON
object body, a missing code field yields False (absence is treated like a
failure code), and a non-integer value there — null, a string, or the
boolean true — also yields False; the one exception is the boolean false,
which the Python comparison of line 107 equates with 0, so it is treated as
success. -/
theorem c10_code_field_policy (key message dateStr : String)
    (obj : List (String × JsonVal)) :
    (lookupField obj "code" = none →
      (sendToWeChat (some key) message (.response 200 (some obj)) dateStr).ok = false) ∧
    (∀ s, lookupField obj "code" = some (JsonVal.jstr s) →
      (sendToWeChat (some key) message (.response 200 (some obj)) dateStr).ok = false) ∧
    (lookupField obj "code" = some JsonVal.jnull →
      (sendToWeChat (some key) message (.response 200 (some obj)) dateStr).ok = false) ∧
    (lookupField obj "code" = some (JsonVal.jbool true) →
      (sendToWeChat (some key) message (.response 200 (some obj)) dateStr).ok = false) ∧
    (lookupField obj "code" = some (JsonVal.jbool false) →
      (sendToWeChat (some key) message (.response 200 (some obj)) dateStr).ok = true) := by
  have h200 : raiseForStatus 200 = false := rfl
  refine ⟨?_, ?_, ?_, ?_, ?_⟩
  · intro h
    rw [sendOk_response, h200]
    simp [h]
  · intro s h
    rw [sendOk_response, h200]
    simp [h, pyEqZero]
  · intro h
    rw [sendOk_response, h200]
    simp [h, pyEqZero]
  · intro h
    rw [sendOk_response, h200]
    simp [h, pyEqZero]
  · intro h
    rw [sendOk_response, h200]
    simp [h, pyEqZero]

/-- Witness for C10 (amended): a concrete body with only a message field —
no code field — is reported as failure. -/
theorem c10_code_field_policy_witness :
    lookupField [("message", JsonVal.jstr "ok")] "code" = none ∧
    (sendToWeChat (some "k") "m"
      (.response 200 (some [("message", JsonVal.jstr "ok")])) "d").ok = false :=
  ⟨by decide, (c10_code_field_policy "k" "m" "d" [("message", JsonVal.jstr "ok")]).1 (by decide)⟩

/-- Claim C6: an empty or whitespace-only message is replaced by the fixed
localized placeholder before sending, so the issued POST never carries an
empty body; end-to-end, a feed whose entries are all older than the cutoff
produces an empty story list and the sent message equals the placeholder. -/
theorem c6_placeholder_substitution (key message dateStr : String)
    (outcome : PostOutcome) (feed : List Entry) (cutoff : Int) :
    (pyStrip message = "" →
      ∀ p ∈ (sendToWeChat (some key) message outcome dateStr).posts,
        p.desp = placeholderMsg) ∧
    (∀ sk : Option String, ∀ p ∈ (sendToWeChat sk message outcome dateStr).posts,
      p.desp ≠ "") ∧
    ((∀ e ∈ feed, isStale cutoff e = true) →
      getRecentStories feed cutoff = [] ∧
      ∀ p ∈ (mainRun feed cutoff (some key) outcome dateStr).posts,
        p.desp = placeholderMsg) := by
  have hph : placeholderMsg ≠ "" := by decide
  refine ⟨?_, ?_, ?_⟩
  · intro htrim p hp
    rw [sendPosts_some, List.mem_singleton] at hp
    subst hp
    show (if pyStrip message == "" then placeholderMsg else message) = placeholderMsg
    rw [if_pos (by rw [htrim]; rfl)]
  · intro sk p hp
    cases sk with
    | none => exact absurd hp (List.not_mem_nil p)
    | some k =>
      rw [sendPosts_some, List.mem_singleton] at hp
      subst hp
      show (if pyStrip message == "" then placeholderMsg else message) ≠ ""
      cases hm : (pyStrip message == "") with
      | true => simp only [if_pos]; exact hph
      | false =>
        simp only [Bool.false_eq_true, if_neg]
        intro he
        subst he
        exact absurd hm (by decide)
  · intro hall
    have hempty : getRecentStories feed cutoff = [] := by
      cases feed with
      | nil => rfl
      | cons e rest =>
        have he := hall e (List.mem_cons_self e rest)
        cases e with
        | mk ti li pub =>
          cases pub with
          | none => exact absurd he (by simp [isStale])
          | some t =>
            have ht : t < cutoff := by
              simp [isStale] at he
              omega
            show (if cutoff ≤ t then _ else []) = []
            rw [if_neg (by omega)]
    refine ⟨hempty, ?_⟩
    intro p hp
    unfold mainRun at hp
    rw [hempty] at hp
    have hb : buildMessage [] = "" := rfl
    rw [hb, sendPosts_some, List.mem_singleton] at hp
    subst hp
    show (if pyStrip "" == "" then placeholderMsg else "") = placeholderMsg
    rfl

/-- Witness for C6: a whitespace-only message is sent as the placeholder, and
a concrete feed with a single stale entry makes the whole pipeline send the
placeholder. -/
theorem c6_placeholder_substitution_witness :
    pyStrip "  " = "" ∧
    (∀ p ∈ (sendToWeChat (some "k") "  " .timeout "d").posts,
      p.desp = placeholderMsg) ∧
    (∀ e ∈ [(⟨"Old", "lo", some 0⟩ : Entry)], isStale 100 e = true) ∧
    getRecentStories [⟨"Old", "lo", some 0⟩] 100 = [] ∧
    ∀ p ∈ (mainRun [⟨"Old", "lo", some 0⟩] 100 (some "k") .timeout "d").posts,
      p.desp = placeholderMsg :=
  ⟨by decide,
   (c6_placeholder_substitution "k" "  " "d" .timeout [⟨"Old", "lo", some 0⟩] 100).1
     (by decide),
   by decide,
   ((c6_placeholder_substitution "k" "  " "d" .timeout [⟨"Old", "lo", some 0⟩] 100).2.2
     (by decide)).1,
   ((c6_placeholder_substitution "k" "  " "d" .timeout [⟨"Old", "lo", some 0⟩] 100).2.2
     (by decide)).2⟩
